import Mathlib

/-!
# Verification of the `msk create` scaffold pipeline

Shallow embedding of `src/msk/actions/create.py` from the
mycroft-skills-kit repository: the template-generation pipeline
(`initialize_template`), the commit step (`commit_changes`), the derived
answers (`intent_name`, entity extraction, rendered file bodies), the
prompt validators, the license selection, and the error discrimination in
`create_github_repo` / `link_github_repo`.

Python strings are modelled as `List Char` (with `String` wrappers where
convenient), the on-disk project as the list of relative paths that exist
under the project root (`""` standing for the root directory itself), and
Python exceptions as `Option` / `Except`.
-/

namespace Msk

/-! ## Python string primitives used by create.py -/

/-- Characters matched by the character class `[a-z_A-Z]` of the entity
regular expression `(?<=\x7b)[a-z_A-Z]*(?=\x7d)` (create.py lines 173-178). -/
def isEntChar (c : Char) : Bool :=
  (Char.ofNat 97 ≤ c && c ≤ Char.ofNat 122) ||
  (Char.ofNat 65 ≤ c && c ≤ Char.ofNat 90) ||
  c = Char.ofNat 95

/-- `re.findall(r"(?<=\x7b)[a-z_A-Z]*(?=\x7d)", text)`: the scan finds, at
each position preceded by `\x7b`, the maximal run of `[a-z_A-Z]` characters,
and keeps it when the character right after the run is `\x7d`.  (Greedy `*`
with a lookahead: shorter runs cannot match because the next character of a
shortened run is a word character, not `\x7d`; matches cannot overlap because
a run contains no `\x7b`.) -/
def findEntities : List Char → List String
  | [] => []
  | c :: rest =>
    if c = Char.ofNat 123 then
      (if (rest.drop (rest.takeWhile isEntChar).length).head? = some (Char.ofNat 125)
       then [String.mk (rest.takeWhile isEntChar)] else []) ++ findEntities rest
    else findEntities rest

/-- `set(re.findall(...))` over a text (create.py lines 173-178:
`intent_entities` / `dialog_entities`). -/
def entitySet (text : List Char) : Finset String :=
  (findEntities text).toFinset

/-- Python `name.split("-")` (create.py line 252): split on every hyphen,
keeping empty pieces; `"".split("-") == [""]`. -/
def splitHyphen : List Char → List (List Char)
  | [] => [[]]
  | c :: rest =>
    if c = '-' then [] :: splitHyphen rest
    else
      match splitHyphen rest with
      | [] => [[c]]
      | w :: ws => (c :: w) :: ws

/-- Python `sep.join(pieces)`. -/
def pyJoin (sep : List Char) : List (List Char) → List Char
  | [] => []
  | [t] => t
  | t :: ts => t ++ sep ++ pyJoin sep ts

/-- create.py line 252: `intent_name = ".".join(reversed(name.split("-")))`. -/
def intent_name (name : List Char) : List Char :=
  pyJoin ['.'] (splitHyphen name).reverse

/-- `intent_name` on `String`s. -/
def intent_nameS (name : String) : String :=
  String.mk (intent_name name.data)

/-- Python `str.capitalize()`: first character uppercased, the rest
lowercased (applied to every prompted line, create.py lines 163-172). -/
def pyCapitalize : List Char → List Char
  | [] => []
  | c :: rest => c.toUpper :: rest.map Char.toLower

/-- `pyCapitalize` on `String`s. -/
def pyCapitalizeS (s : String) : String :=
  String.mk (pyCapitalize s.data)

/-- create.py line 195, the color prompt validator
`lambda x: "#" in x[0]`.  `x[0]` raises `IndexError` on the empty string
(modelled as `none`); otherwise `"#" in x[0]` tests whether the first
character is `#`. -/
def color_validator (x : String) : Option Bool :=
  match x.data with
  | [] => none
  | c :: _ => some (c = '#')

/-- Python `str.isdigit()` for ASCII input: nonempty and all characters
are decimal digits (create.py line 277). -/
def strIsDigit (s : List Char) : Bool :=
  !s.isEmpty && s.all Char.isDigit

/-- Python `int(s)` for a digit string (create.py line 278). -/
def strToNat (s : List Char) : Nat :=
  s.foldl (fun a c => a * 10 + (c.toNat - 48)) 0

/-- Python list-index normalization: a negative index counts from the
end. -/
def pyIndexNorm (n : Nat) (i : Int) : Int :=
  if i < 0 then i + n else i

/-- Python list indexing `xs[i]`: negative indices count from the end,
out-of-range indexing raises `IndexError` (modelled as `none`). -/
def pyIndex {α : Type} (xs : List α) (i : Int) : Option α :=
  if h : 0 ≤ pyIndexNorm xs.length i ∧ (pyIndexNorm xs.length i).toNat < xs.length
  then some (xs.get ⟨(pyIndexNorm xs.length i).toNat, h.2⟩)
  else none

/-- create.py lines 276-282 (`license`): the user's choice string is taken,
and when it is all digits the file `license_files[int(choice) - 1]` is
copied to `LICENSE.md`.  Result: `some (some f)` when file `f` is copied,
`some none` when the choice is not a digit string (skip), `none` when the
unguarded indexing raises `IndexError`. -/
def license_choice (choice : List Char) (license_files : List String) :
    Option (Option String) :=
  if strIsDigit choice then
    match pyIndex license_files ((strToNat choice : Int) - 1) with
    | some f => some (some f)
    | none => none
  else
    some none

/-! ## Rendered file bodies -/

/-- Python `str.upper()` (create.py line 225, `color.upper()`). -/
def pyUpperS (s : String) : String :=
  String.mk (s.data.map Char.toUpper)

/-- Python `str.title()` helper: a letter starting a run of letters is
uppercased, later letters of the run are lowercased (create.py line 219). -/
def pyTitleAux : Bool → List Char → List Char
  | _, [] => []
  | prevAlpha, c :: rest =>
    (if c.isAlpha then (if prevAlpha then c.toLower else c.toUpper) else c)
      :: pyTitleAux c.isAlpha rest

/-- Python `str.title()` on `String`s. -/
def pyTitleS (s : String) : String :=
  String.mk (pyTitleAux false s.data)

/-- Python single-character `str.replace` (create.py lines 219, 231, 232). -/
def pyReplaceChar (old new : Char) (s : String) : String :=
  String.mk (s.data.map fun c => if c = old then new else c)

/-- create.py lines 163-167: `intent_lines`, each prompted phrase
capitalized. -/
def intent_lines (raw : List String) : List String :=
  raw.map pyCapitalizeS

/-- create.py lines 168-172: `dialog_lines`, each prompted response
capitalized. -/
def dialog_lines (raw : List String) : List String :=
  raw.map pyCapitalizeS

/-- create.py lines 254-257 (`add_vocab`): the `.intent` vocabulary file
body is `"\n".join(intent_lines + [""])`. -/
def vocab_file_content (intentLines : List String) : String :=
  "\n".intercalate (intentLines ++ [""])

/-- create.py lines 259-262 (`add_dialog`): the `.dialog` file body is
`"\n".join(dialog_lines + [""])`. -/
def dialog_file_content (dialogLines : List String) : String :=
  "\n".intercalate (dialogLines ++ [""])

/-- create.py lines 61-63, `credits_template` rendered. -/
def credits_render (author : String) : String :=
  "## Credits\n" ++ author ++ "\n"

/-- create.py lines 82-86, `gitignore_template`. -/
def gitignore_template : String :=
  "__pycache__/\n*.qmlc\nsettings.json\n\n"

/-- create.py lines 88-110, `settingsmeta_template`. -/
def settingsmeta_template : String :=
  "\nskillMetadata:\n  sections:\n    - name: Options << Name of section\n      fields:\n        - name: internal_python_variable_name\n          type: text\n          label: Setting Friendly Display Name\n          value: \"\"\n          placeholder: demo prompt in the input box\n    - name: Login << Name of another section\n      fields:\n        - type: label\n          label: Just a little bit of extra info for the user to understand following settings\n        - name: username\n          type: text\n          label: Username\n          value: \"\"\n        - name: password\n          type: password\n          label: Password\n          value: \"\"\n"

/-- create.py lines 44-59, `readme_template.format(...)` as a function of
its placeholder fields (the backslash line continuation joins the first
two template lines). -/
def readme_render (icon color title_name short_description long_description
    examples credits category_primary categories_other tags : String) : String :=
  "# <img src=\"https://raw.githack.com/FortAwesome/Font-Awesome/master/svgs/solid/"
    ++ icon ++ ".svg\" card_color=\"" ++ color
    ++ "\" width=\"50\" height=\"50\" style=\"vertical-align:bottom\"/> "
    ++ title_name ++ "\n" ++ short_description ++ "\n\n## About\n"
    ++ long_description ++ "\n\n## Examples\n" ++ examples ++ "\n" ++ credits
    ++ "\n## Category\n**" ++ category_primary ++ "**\n" ++ categories_other
    ++ "\n## Tags\n" ++ tags ++ "\n"

/-- create.py lines 218-229: the `readme` lazy answer. -/
def readme (name short_description long_description author icon color
    category_primary : String)
    (intentLines categories_other tags : List String) : String :=
  readme_render icon (pyUpperS color) (pyTitleS (pyReplaceChar '-' ' ' name))
    short_description long_description
    (String.join (intentLines.map fun i => "* \"" ++ i ++ "\"\n"))
    (credits_render author) category_primary
    (String.join (categories_other.map fun i => i ++ "\n"))
    (String.join (tags.map fun i => "#" ++ i ++ "\n"))

/-! ## The generated handler stub (`init_file`, create.py lines 230-251)

Python iterates `s.dialog_entities | s.intent_entities` in set-iteration
order, which CPython leaves unspecified; that enumeration is passed in as
`unionEnum`.  The binding lists use `sorted(...)`, modelled by
`Finset.sort`. -/

/-- create.py lines 243-248: the `self.speak_dialog(...)` call text; the
`data=...` argument appears only when some entity exists. -/
def speak_dialog_call (intentName : String) (union : Finset String)
    (unionEnum : List String) : String :=
  "self.speak_dialog(\x27" ++ intentName ++ "\x27" ++
  (if union = ∅ then "" else
    ", data=\x7b\n" ++
    ",\n".intercalate (unionEnum.map fun e => "    \x27" ++ e ++ "\x27: " ++ e)
    ++ "\n\x7d") ++ ")"

/-- create.py lines 233-248: the raw (unindented) lines of the handler
body: `message.data.get` bindings for intent entities, empty-string
bindings for dialog-only entities, a blank separator when any entity
exists, then the `speak_dialog` call split on newlines. -/
def handler_lines (intent_entities dialog_entities : Finset String)
    (intentName : String) (unionEnum : List String) : List String :=
  ((intent_entities.sort (· ≤ ·)).map fun e =>
      e ++ " = message.data.get(\x27" ++ e ++ "\x27)") ++
  (((dialog_entities \ intent_entities).sort (· ≤ ·)).map fun e =>
      e ++ " = \x27\x27") ++
  (if dialog_entities ∪ intent_entities = ∅ then ([] : List String) else [""]) ++
  (speak_dialog_call intentName (dialog_entities ∪ intent_entities) unionEnum).splitOn "\n"

/-- create.py lines 233-235: each nonempty handler line gets an 8-space
indent (`" " * 8 * bool(i) + i`). -/
def handler_code_lines (intent_entities dialog_entities : Finset String)
    (intentName : String) (unionEnum : List String) : List String :=
  (handler_lines intent_entities dialog_entities intentName unionEnum).map
    fun i => (if i.isEmpty then "" else "        ") ++ i

/-- create.py lines 233-249: `handler_code`, the joined handler body. -/
def handler_code (intent_entities dialog_entities : Finset String)
    (intentName : String) (unionEnum : List String) : String :=
  "\n".intercalate (handler_code_lines intent_entities dialog_entities intentName unionEnum)

/-- create.py lines 65-80: `init_template.format(...)`.  `class_name`
comes from `to_camel` (msk/util.py, outside src/), so it is a parameter. -/
def init_file (class_name intentName handler_code_str : String) : String :=
  "from mycroft import MycroftSkill, intent_file_handler\n\n\nclass "
    ++ class_name ++ "(MycroftSkill):\n    def __init__(self):\n        MycroftSkill.__init__(self)\n\n    @intent_file_handler(\x27"
    ++ intentName ++ ".intent\x27)\n    def handle_"
    ++ pyReplaceChar '.' '_' intentName ++ "(self, message):\n"
    ++ handler_code_str ++ "\n\n\ndef create_skill():\n    return "
    ++ class_name ++ "()\n"

/-! ## The scaffold pipeline (`initialize_template`, create.py lines 284-312)

The on-disk project is the list of relative paths that exist under the
project root, `""` standing for the root directory itself.  A handler
returns the new filesystem, the string it returned (if any; the loop then
writes that string to the entry's path when the path still does not
exist), and how many files the handler itself wrote.  `none` models a
raised exception. -/

/-- Result of one template handler. -/
structure HRes where
  fs : List String
  text : Option String
  writes : Nat

/-- Ambient answers the pipeline reads (prompted or derived elsewhere). -/
structure Ctx where
  lang : String
  intentName : String
  init_file_text : String
  readme_text : String
  license_files : List String
  license_choice_input : List Char
  git_init_output : String

/-- `exists(join(self.path, file))` (create.py lines 307, 309). -/
def pyExists (fs : List String) (f : String) : Bool :=
  fs.contains f

/-- create.py lines 254-257 (`add_vocab`): creates `vocab/<lang>` and
writes the intent file. -/
def add_vocab (ctx : Ctx) (fs : List String) : Option HRes :=
  some ⟨("vocab/" ++ ctx.lang ++ "/" ++ ctx.intentName ++ ".intent")
          :: ("vocab/" ++ ctx.lang) :: "vocab" :: fs, none, 1⟩

/-- create.py lines 259-262 (`add_dialog`): creates `dialog/<lang>` and
writes the dialog file. -/
def add_dialog (ctx : Ctx) (fs : List String) : Option HRes :=
  some ⟨("dialog/" ++ ctx.lang ++ "/" ++ ctx.intentName ++ ".dialog")
          :: ("dialog/" ++ ctx.lang) :: "dialog" :: fs, none, 1⟩

/-- create.py lines 269-282 (`license`): copies the chosen license file to
`LICENSE.md`, skips on non-digit input, raises `IndexError` (`none`) when
the unguarded indexing is out of range. -/
def license_handler (ctx : Ctx) (fs : List String) : Option HRes :=
  match license_choice ctx.license_choice_input ctx.license_files with
  | none => none
  | some (some _) => some ⟨"LICENSE.md" :: fs, none, 1⟩
  | some none => some ⟨fs, none, 0⟩

/-- create.py line 296: `git.init()` creates `.git` and returns the
command's stdout (a string, so the loop's write branch inspects it, but
`.git` already exists by then). -/
def git_init_handler (ctx : Ctx) (fs : List String) : Option HRes :=
  some ⟨".git" :: fs, some ctx.git_init_output, 0⟩

/-- create.py lines 287-297: the ordered template list. -/
def skill_template (ctx : Ctx) : List (String × (List String → Option HRes)) :=
  [("", fun fs => some ⟨"" :: fs, none, 0⟩),
   ("vocab", add_vocab ctx),
   ("dialog", add_dialog ctx),
   ("__init__.py", fun fs => some ⟨fs, some ctx.init_file_text, 0⟩),
   ("README.md", fun fs => some ⟨fs, some ctx.readme_text, 0⟩),
   ("LICENSE.md", license_handler ctx),
   (".gitignore", fun fs => some ⟨fs, some gitignore_template, 0⟩),
   ("settingsmeta.yaml", fun fs => some ⟨fs, some settingsmeta_template, 0⟩),
   (".git", git_init_handler ctx)]

/-- create.py line 305: `if files and file not in files: continue`.
An empty set is falsy in Python, so only a nonempty `files` restricts. -/
def skippedByFiles (files : Option (List String)) (f : String) : Bool :=
  match files with
  | none => false
  | some l => !l.isEmpty && !l.contains f

/-- create.py lines 307-311: process one template entry: skip when the
path exists; otherwise run the handler, and when it returned a string and
the path still does not exist, write the string to the path. -/
def runEntry (e : String × (List String → Option HRes))
    (fs : List String) (w : Nat) : Option (List String × Nat) :=
  if pyExists fs e.1 then some (fs, w)
  else
    match e.2 fs with
    | none => none
    | some r =>
      match r.text with
      | some _ =>
        if !pyExists r.fs e.1 then some (e.1 :: r.fs, w + r.writes + 1)
        else some (r.fs, w + r.writes)
      | none => some (r.fs, w + r.writes)

/-- One iteration of the `for file, handler in skill_template` loop,
including the subset-restriction guard; `none` propagates a raised
exception. -/
def runEntryF (files : Option (List String))
    (acc : Option (List String × Nat))
    (e : String × (List String → Option HRes)) : Option (List String × Nat) :=
  match acc with
  | none => none
  | some (fs, w) =>
    if skippedByFiles files e.1 then some (fs, w) else runEntry e fs w

/-- Outcome of `initialize_template`: final filesystem, number of files
written, whether the `atexit` cleanup was registered while the loop ran,
and whether it is still registered after `atexit.unregister` at the end. -/
structure ITResult where
  fs : List String
  writes : Nat
  cleanup_registered_during : Bool
  cleanup_registered_after : Bool
deriving DecidableEq, Repr

/-- create.py lines 302-303: `if not isdir(self.path): atexit.register(cleanup)`
— whether the cleanup hook is registered before the loop starts. -/
def cleanup_registered (fs0 : List String) : Bool :=
  !fs0.contains ""

/-- create.py lines 284-312 (`initialize_template`): register the cleanup
when the root is not a directory yet, run the guarded loop, then
`atexit.unregister(cleanup)`. -/
def initialize_template (ctx : Ctx) (files : Option (List String))
    (fs0 : List String) : Option ITResult :=
  match (skill_template ctx).foldl (runEntryF files) (some (fs0, 0)) with
  | none => none
  | some (fs, w) => some ⟨fs, w, cleanup_registered fs0, false⟩

/-- The filesystem/write-count states reached after 0, 1, ..., 9 template
entries: the possible interruption points inside the loop. -/
def pipelineTrace (ctx : Ctx) (files : Option (List String))
    (fs0 : List String) : List (Option (List String × Nat)) :=
  (skill_template ctx).scanl (runEntryF files) (some (fs0, 0))

/-- What running the registered `atexit` hooks at process termination does
to the filesystem: when `cleanup` is registered, `rmtree(self.path)`
removes the root and everything beneath it (create.py lines 299-300). -/
def atexit_run (registered : Bool) (fs : List String) : List String :=
  if registered then [] else fs

/-! ## The commit step (`commit_changes`, create.py lines 314-317) -/

/-- Local repository state: the commit `HEAD` resolves to (if any) and how
many commits exist. -/
structure GitState where
  headSha : Option String
  commits : Nat
deriving DecidableEq, Repr

/-- `git rev-parse HEAD` with `with_exceptions=False`: the commit hash
when `HEAD` resolves, the literal string `"HEAD"` when it does not
(create.py line 315). -/
def rev_parse_HEAD (g : GitState) : String :=
  match g.headSha with
  | some sha => sha
  | none => "HEAD"

/-- create.py lines 314-317: stage everything and create the initial
commit only when `HEAD` does not resolve; `newSha` is the hash of the
commit that would be created. -/
def commit_changes (g : GitState) (newSha : String) : GitState :=
  if rev_parse_HEAD g = "HEAD" then ⟨some newSha, g.commits + 1⟩ else g

/-! ## Remote-repository error discrimination (create.py lines 332-373) -/

/-- The exceptions create.py raises or inspects; the two msk-specific ones
carry their `from e` cause. -/
inductive PyExc where
  | githubException (status : Nat)
  | gitCommandError (status : Int)
  | githubRepoExists (repoName : String) (cause : PyExc)
  | unrelatedGithubHistory (repoName : String) (cause : PyExc)
deriving DecidableEq, Repr

/-- create.py lines 356-361 (`create_github_repo`): the
`try: self.user.create_repo(...)` block.  A `GithubException` with status
422 becomes `GithubRepoExists(repo_name) from e`; any other status is
re-raised unchanged; non-`GithubException` errors are not caught. -/
def create_github_repo_attempt (repoName : String)
    (createResult : Except PyExc String) : Except PyExc String :=
  match createResult with
  | .ok repo => .ok repo
  | .error (.githubException status) =>
    if status = 422 then
      .error (.githubRepoExists repoName (.githubException status))
    else .error (.githubException status)
  | .error e => .error e

/-- create.py lines 342-347 (`link_github_repo`): the
`try: self.git.pull("origin", "master")` block.  A `GitCommandError` with
status 128 becomes `UnrelatedGithubHistory(repo_name) from e`; any other
status is re-raised unchanged; other errors are not caught. -/
def link_github_repo_pull (repoName : String)
    (pullResult : Except PyExc Unit) : Except PyExc Unit :=
  match pullResult with
  | .ok u => .ok u
  | .error (.gitCommandError status) =>
    if status = 128 then
      .error (.unrelatedGithubHistory repoName (.gitCommandError status))
    else .error (.gitCommandError status)
  | .error e => .error e

/-- Whether an exception is (an instance of) `GithubRepoExists`. -/
def is_github_repo_exists : PyExc → Bool
  | .githubRepoExists _ _ => true
  | _ => false

/-- Modelled from the spec: `print_error` (msk/util.py, not under src/) is
a context manager that catches the named exception class and prints it
rather than letting it crash the process ("caught at the top level and
printed rather than crashing the process"). -/
def print_error_block (r : Except PyExc Unit) : Except PyExc Unit :=
  match r with
  | .error e => if is_github_repo_exists e then .ok () else .error e
  | .ok u => .ok u

/-- create.py lines 368-373 (`perform`): the remote-creation step runs
inside `with print_error(GithubRepoExists)`. -/
def perform_create_step (repoName : String)
    (createResult : Except PyExc String) : Except PyExc Unit :=
  print_error_block ((create_github_repo_attempt repoName createResult).map fun _ => ())

/-! ## Concrete sample values used to instantiate the theorems -/

/-- The placeholder text `\x7bw\x7d` as a character list. -/
def placeholder (w : List Char) : List Char :=
  Char.ofNat 123 :: (w ++ [Char.ofNat 125])

/-- Sample answer context. -/
def ctxW : Ctx := ⟨"en-us", "alarm.siren", "INIT", "README", [], [], "GITINIT"⟩

/-- The relative paths of a fully built project: every template entry
exists. -/
def fsBuilt : List String :=
  ["", "vocab", "dialog", "__init__.py", "README.md", "LICENSE.md",
   ".gitignore", "settingsmeta.yaml", ".git"]

/-! ## Lemmas: the entity scan -/

theorem isEntChar_ne_lbrace {c : Char} (h : isEntChar c = true) :
    c ≠ Char.ofNat 123 := by
  intro he
  subst he
  exact absurd h (by decide)

theorem findEntities_cons_other (c : Char) (t : List Char)
    (h : c ≠ Char.ofNat 123) : findEntities (c :: t) = findEntities t := by
  simp only [findEntities, if_neg h]

theorem findEntities_cons_subset (c : Char) (cs : List Char) :
    findEntities cs ⊆ findEntities (c :: cs) := by
  intro s hs
  by_cases h : c = Char.ofNat 123
  · simp only [findEntities, if_pos h]
    exact List.mem_append_right _ hs
  · simp only [findEntities, if_neg h]
    exact hs

theorem findEntities_append_subset (a t : List Char) :
    findEntities t ⊆ findEntities (a ++ t) := by
  induction a with
  | nil => exact fun s hs => hs
  | cons c a ih => exact fun s hs => findEntities_cons_subset c (a ++ t) (ih hs)

theorem takeWhile_append_all {p : Char → Bool} (w : List Char) (x : Char)
    (t : List Char) (hw : ∀ c ∈ w, p c = true) (hx : p x = false) :
    (w ++ x :: t).takeWhile p = w := by
  induction w with
  | nil => simp [List.takeWhile_cons, hx]
  | cons c w ih =>
    have hc : p c = true := hw c (List.mem_cons_self c w)
    simp only [List.cons_append, List.takeWhile_cons, hc, if_true]
    rw [ih (fun d hd => hw d (List.mem_cons_of_mem c hd))]

theorem findEntities_placeholder (w t : List Char)
    (hw : ∀ c ∈ w, isEntChar c = true) :
    findEntities (Char.ofNat 123 :: (w ++ Char.ofNat 125 :: t)) =
      String.mk w :: findEntities (w ++ Char.ofNat 125 :: t) := by
  have htw : (w ++ Char.ofNat 125 :: t).takeWhile isEntChar = w :=
    takeWhile_append_all w _ t hw (by decide)
  simp only [findEntities, if_pos rfl, htw]
  rw [List.drop_left]
  simp

theorem findEntities_no_brace_append (a t : List Char)
    (ha : ∀ c ∈ a, c ≠ Char.ofNat 123) :
    findEntities (a ++ t) = findEntities t := by
  induction a with
  | nil => rfl
  | cons c a ih =>
    have hc := ha c (List.mem_cons_self c a)
    simp only [List.cons_append, findEntities, if_neg hc]
    exact ih (fun d hd => ha d (List.mem_cons_of_mem c hd))

theorem findEntities_no_brace (a : List Char)
    (ha : ∀ c ∈ a, c ≠ Char.ofNat 123) : findEntities a = [] := by
  simpa using findEntities_no_brace_append a [] ha

theorem mem_findEntities_placeholder (a w r : List Char)
    (hw : ∀ c ∈ w, isEntChar c = true) :
    String.mk w ∈ findEntities (a ++ (placeholder w ++ r)) := by
  apply findEntities_append_subset a
  have h : placeholder w ++ r = Char.ofNat 123 :: (w ++ Char.ofNat 125 :: r) := by
    simp [placeholder, List.append_assoc]
  rw [h, findEntities_placeholder w _ hw]
  exact List.mem_cons_self _ _

theorem findEntities_two (a b c w1 w2 : List Char)
    (hw1 : ∀ ch ∈ w1, isEntChar ch = true)
    (hw2 : ∀ ch ∈ w2, isEntChar ch = true)
    (ha : ∀ ch ∈ a, ch ≠ Char.ofNat 123)
    (hb : ∀ ch ∈ b, ch ≠ Char.ofNat 123)
    (hc : ∀ ch ∈ c, ch ≠ Char.ofNat 123) :
    findEntities (a ++ (placeholder w1 ++ (b ++ (placeholder w2 ++ c)))) =
      [String.mk w1, String.mk w2] := by
  rw [findEntities_no_brace_append a _ ha]
  have h1 : placeholder w1 ++ (b ++ (placeholder w2 ++ c)) =
      Char.ofNat 123 :: (w1 ++ Char.ofNat 125 :: (b ++ (placeholder w2 ++ c))) := by
    simp [placeholder, List.append_assoc]
  rw [h1, findEntities_placeholder w1 _ hw1]
  rw [findEntities_no_brace_append w1 _
    (fun ch hch => isEntChar_ne_lbrace (hw1 ch hch))]
  rw [findEntities_cons_other _ _ (by decide)]
  rw [findEntities_no_brace_append b _ hb]
  have h2 : placeholder w2 ++ c = Char.ofNat 123 :: (w2 ++ Char.ofNat 125 :: c) := by
    simp [placeholder, List.append_assoc]
  rw [h2, findEntities_placeholder w2 _ hw2]
  rw [findEntities_no_brace_append w2 _
    (fun ch hch => isEntChar_ne_lbrace (hw2 ch hch))]
  rw [findEntities_cons_other _ _ (by decide)]
  rw [findEntities_no_brace c hc]

theorem append_sq_ne_empty (e : String) :
    (e ++ " = \x27\x27").isEmpty = false := by
  rw [Bool.eq_false_iff]
  intro h
  have h2 := (String.isEmpty_iff _).mp h
  have h3 := congrArg String.length h2
  rw [String.length_append] at h3
  have h4 : (" = \x27\x27" : String).length = 5 := rfl
  have h5 : ("" : String).length = 0 := rfl
  omega

/-- C3 (amended): for any text of the form `a\x7bfoo\x7db\x7bbar\x7dc`, the
extracted entity set always contains `foo` and `bar`; it is exactly
`\x7bfoo, bar\x7d` when the surrounding pieces `a`, `b`, `c` contain no
`\x7b` character (arbitrary surrounding text may contribute further
entities); and every entity appearing in dialog lines but not in example
phrases is bound by a line `ent = \x27\x27` (8-space indented) in the
generated handler stub. -/
theorem C3_entity_extraction :
    (∀ (a b c w1 w2 : List Char),
       (∀ ch ∈ w1, isEntChar ch = true) → (∀ ch ∈ w2, isEntChar ch = true) →
       String.mk w1 ∈ entitySet (a ++ (placeholder w1 ++ (b ++ (placeholder w2 ++ c)))) ∧
       String.mk w2 ∈ entitySet (a ++ (placeholder w1 ++ (b ++ (placeholder w2 ++ c))))) ∧
    (∀ (a b c w1 w2 : List Char),
       (∀ ch ∈ w1, isEntChar ch = true) → (∀ ch ∈ w2, isEntChar ch = true) →
       (∀ ch ∈ a, ch ≠ Char.ofNat 123) → (∀ ch ∈ b, ch ≠ Char.ofNat 123) →
       (∀ ch ∈ c, ch ≠ Char.ofNat 123) →
       entitySet (a ++ (placeholder w1 ++ (b ++ (placeholder w2 ++ c)))) =
         {String.mk w1, String.mk w2}) ∧
    (∀ (intentEnts dialogEnts : Finset String) (iname : String)
       (unionEnum : List String) (e : String),
       e ∈ dialogEnts → e ∉ intentEnts →
       ("        " ++ (e ++ " = \x27\x27")) ∈
         handler_code_lines intentEnts dialogEnts iname unionEnum) := by
  refine ⟨?_, ?_, ?_⟩
  · intro a b c w1 w2 hw1 hw2
    constructor
    · exact List.mem_toFinset.mpr (mem_findEntities_placeholder a w1 _ hw1)
    · have hsh : a ++ (placeholder w1 ++ (b ++ (placeholder w2 ++ c))) =
          (a ++ (placeholder w1 ++ b)) ++ (placeholder w2 ++ c) := by
        simp [List.append_assoc]
      unfold entitySet
      rw [hsh]
      exact List.mem_toFinset.mpr (mem_findEntities_placeholder _ w2 _ hw2)
  · intro a b c w1 w2 hw1 hw2 ha hb hc
    unfold entitySet
    rw [findEntities_two a b c w1 w2 hw1 hw2 ha hb hc]
    simp
  · intro intentEnts dialogEnts iname unionEnum e he hni
    have hsd : e ∈ dialogEnts \ intentEnts := Finset.mem_sdiff.mpr ⟨he, hni⟩
    have hsort : e ∈ (dialogEnts \ intentEnts).sort (· ≤ ·) :=
      (Finset.mem_sort (· ≤ ·)).mpr hsd
    have hline : (e ++ " = \x27\x27") ∈
        ((dialogEnts \ intentEnts).sort (· ≤ ·)).map
          (fun x => x ++ " = \x27\x27") :=
      List.mem_map_of_mem _ hsort
    have hlines : (e ++ " = \x27\x27") ∈
        handler_lines intentEnts dialogEnts iname unionEnum := by
      unfold handler_lines
      simp only [List.mem_append]
      exact Or.inl (Or.inl (Or.inr hline))
    unfold handler_code_lines
    refine List.mem_map.mpr ⟨e ++ " = \x27\x27", hlines, ?_⟩
    rw [append_sq_ne_empty e]
    simp

/-- C3 (counterexample to the claim as stated): the text
`\x7bfoo\x7d \x7bbar\x7d \x7bbaz\x7d` contains the substrings `\x7bfoo\x7d`
and `\x7bbar\x7d`, yet its extracted entity set is not exactly
`\x7bfoo, bar\x7d` — the surrounding text contributed `baz`. -/
theorem C3_entity_extraction_counterexample :
    entitySet "\x7bfoo\x7d \x7bbar\x7d \x7bbaz\x7d".data ≠
      ({"foo", "bar"} : Finset String) := by decide

/-- C3 witness: the amended theorem applied at concrete inputs. -/
theorem C3_entity_extraction_witness :
    String.mk "foo".data ∈
      entitySet ("x ".data ++ (placeholder "foo".data ++
        (" y ".data ++ (placeholder "bar".data ++ "!".data)))) ∧
    ("        " ++ ("baz" ++ " = \x27\x27")) ∈
      handler_code_lines {"foo"} {"foo", "baz"} "alarm.siren" ["baz", "foo"] :=
  ⟨(C3_entity_extraction.1 "x ".data " y ".data "!".data "foo".data "bar".data
      (by decide) (by decide)).1,
   C3_entity_extraction.2.2 {"foo"} {"foo", "baz"} "alarm.siren" ["baz", "foo"]
      "baz" (by decide) (by decide)⟩

/-! ## Lemmas: hyphen split and join -/

theorem splitHyphen_no_hyphen (t : List Char) (h : '-' ∉ t) :
    splitHyphen t = [t] := by
  induction t with
  | nil => rfl
  | cons c rest ih =>
    have hc : c ≠ '-' := by
      intro e
      exact h (e ▸ List.mem_cons_self c rest)
    simp only [splitHyphen, if_neg hc]
    rw [ih (fun m => h (List.mem_cons_of_mem c m))]

theorem splitHyphen_append (t u : List Char) (h : '-' ∉ t) :
    splitHyphen (t ++ '-' :: u) = t :: splitHyphen u := by
  induction t with
  | nil => simp [splitHyphen]
  | cons c rest ih =>
    have hc : c ≠ '-' := by
      intro e
      exact h (e ▸ List.mem_cons_self c rest)
    simp only [List.cons_append, splitHyphen, if_neg hc, List.append_eq]
    rw [ih (fun m => h (List.mem_cons_of_mem c m))]

theorem splitHyphen_pyJoin (ts : List (List Char)) (h : ts ≠ [])
    (h2 : ∀ t ∈ ts, '-' ∉ t) : splitHyphen (pyJoin ['-'] ts) = ts := by
  induction ts with
  | nil => exact absurd rfl h
  | cons t ts ih =>
    cases ts with
    | nil => exact splitHyphen_no_hyphen t (h2 t (List.mem_cons_self _ _))
    | cons t2 ts2 =>
      have hj : pyJoin ['-'] (t :: t2 :: ts2) =
          t ++ '-' :: pyJoin ['-'] (t2 :: ts2) := by
        simp [pyJoin, List.append_assoc]
      rw [hj, splitHyphen_append t _ (h2 t (List.mem_cons_self _ _)),
        ih (by simp) (fun x hx => h2 x (List.mem_cons_of_mem t hx))]

/-- C4: the intent identifier is a deterministic function of the name:
on `pizza-orderer` it yields `orderer.pizza`, and in general joining
hyphen-free tokens with `-` and applying `intent_name` gives the reversed
tokens joined with `.`. -/
theorem C4_intent_name :
    intent_nameS "pizza-orderer" = "orderer.pizza" ∧
    ∀ ts : List (List Char), ts ≠ [] → (∀ t ∈ ts, '-' ∉ t) →
      intent_name (pyJoin ['-'] ts) = pyJoin ['.'] ts.reverse := by
  constructor
  · decide
  · intro ts h h2
    unfold intent_name
    rw [splitHyphen_pyJoin ts h h2]

/-- C4 witness: the general part of the theorem applied to the token list
of `pizza-orderer`. -/
theorem C4_intent_name_witness :
    intent_name (pyJoin ['-'] ["pizza".data, "orderer".data]) =
      pyJoin ['.'] (["pizza".data, "orderer".data]).reverse :=
  C4_intent_name.2 ["pizza".data, "orderer".data] (by decide) (by decide)

/-- C5: the color prompt validator `lambda x: "#" in x[0]` raises
`IndexError` (modelled `none`) on the empty input string, contradicting
the claim that invalid prompt input never raises; on nonempty input it
returns a verdict (accept iff the first character is `#`). -/
theorem C5_color_validator_empty_raises :
    color_validator "" = none ∧
    color_validator "#ff0000" = some true ∧
    color_validator "ff0000" = some false := by
  refine ⟨rfl, ?_, ?_⟩ <;> decide

/-! ## Lemmas: the pipeline skips existing entries -/

theorem runEntryF_exists (files : Option (List String))
    (e : String × (List String → Option HRes)) (fs : List String) (w : Nat)
    (h : fs.contains e.1 = true) :
    runEntryF files (some (fs, w)) e = some (fs, w) := by
  have h2 : e.1 ∈ fs := by simpa using h
  by_cases hs : skippedByFiles files e.1 = true
  · simp [runEntryF, hs]
  · simp [runEntryF, hs, runEntry, pyExists, h2]

theorem foldl_runEntryF_exists (files : Option (List String))
    (l : List (String × (List String → Option HRes)))
    (fs : List String) (w : Nat) (h : ∀ e ∈ l, fs.contains e.1 = true) :
    l.foldl (runEntryF files) (some (fs, w)) = some (fs, w) := by
  induction l with
  | nil => rfl
  | cons e l ih =>
    rw [List.foldl_cons, runEntryF_exists files e fs w (h e (List.mem_cons_self _ _))]
    exact ih (fun x hx => h x (List.mem_cons_of_mem e hx))

/-- C1: when the project root did not exist at pipeline start, the cleanup
is registered, so at every interruption point of the loop an abnormal
process termination (which runs the registered `atexit` hooks) leaves no
directory at the root path; when `initialize_template` completes, the
cleanup is unregistered, so running the hooks afterwards deletes nothing;
and a pre-existing root never has the cleanup registered at all. -/
theorem C1_rollback (ctx : Ctx) (files : Option (List String)) (fs0 : List String) :
    (fs0.contains "" = false →
       cleanup_registered fs0 = true ∧
       ∀ st ∈ pipelineTrace ctx files fs0, ∀ fsMid w, st = some (fsMid, w) →
         "" ∉ atexit_run (cleanup_registered fs0) fsMid) ∧
    (fs0.contains "" = true → cleanup_registered fs0 = false) ∧
    (∀ res ∈ initialize_template ctx files fs0,
       res.cleanup_registered_during = cleanup_registered fs0 ∧
       res.cleanup_registered_after = false ∧
       atexit_run res.cleanup_registered_after res.fs = res.fs) := by
  refine ⟨?_, ?_, ?_⟩
  · intro h
    have hreg : cleanup_registered fs0 = true := by
      unfold cleanup_registered
      rw [h]
      rfl
    refine ⟨hreg, ?_⟩
    intro st hst fsMid w hsome
    rw [hreg]
    simp [atexit_run]
  · intro h
    unfold cleanup_registered
    rw [h]
    rfl
  · intro res hres
    unfold initialize_template at hres
    rcases hfold : (skill_template ctx).foldl (runEntryF files) (some (fs0, 0)) with _ | ⟨fs, w⟩ <;>
      rw [hfold] at hres
    · simp at hres
    · simp only [Option.mem_def, Option.some.injEq] at hres
      subst hres
      exact ⟨rfl, rfl, by simp [atexit_run]⟩

/-- C1 witness: starting from an empty filesystem (no root yet), the
cleanup is registered. -/
theorem C1_rollback_witness :
    ([] : List String).contains "" = false ∧ cleanup_registered [] = true :=
  ⟨by decide, ((C1_rollback ctxW none []).1 (by decide)).1⟩

/-- C2: a second run of the scaffold pipeline against a project in which
every template path already exists skips every entry — the filesystem is
unchanged and zero files are written — and `commit_changes` is a no-op
once `HEAD` resolves to a commit hash. -/
theorem C2_idempotent (ctx : Ctx) (files : Option (List String)) (fs : List String)
    (g : GitState) (sha newSha : String)
    (h0 : fs.contains "" = true) (h1 : fs.contains "vocab" = true)
    (h2 : fs.contains "dialog" = true) (h3 : fs.contains "__init__.py" = true)
    (h4 : fs.contains "README.md" = true) (h5 : fs.contains "LICENSE.md" = true)
    (h6 : fs.contains ".gitignore" = true)
    (h7 : fs.contains "settingsmeta.yaml" = true)
    (h8 : fs.contains ".git" = true)
    (hg : g.headSha = some sha) (hsha : sha ≠ "HEAD") :
    initialize_template ctx files fs = some ⟨fs, 0, false, false⟩ ∧
    commit_changes g newSha = g := by
  constructor
  · have hall : ∀ e ∈ skill_template ctx, fs.contains e.1 = true := by
      intro e he
      simp only [skill_template, List.mem_cons, List.not_mem_nil, or_false] at he
      rcases he with rfl | rfl | rfl | rfl | rfl | rfl | rfl | rfl | rfl
      exacts [h0, h1, h2, h3, h4, h5, h6, h7, h8]
    unfold initialize_template
    rw [foldl_runEntryF_exists files _ fs 0 hall]
    show some (ITResult.mk fs 0 (cleanup_registered fs) false) = some ⟨fs, 0, false, false⟩
    unfold cleanup_registered
    rw [h0]
    rfl
  · have hrev : rev_parse_HEAD g = sha := by
      unfold rev_parse_HEAD
      rw [hg]
    unfold commit_changes
    rw [hrev, if_neg hsha]

/-- C2 witness: the theorem applied to a concrete fully built project and
a repository with one commit. -/
theorem C2_idempotent_witness :
    initialize_template ctxW none fsBuilt = some ⟨fsBuilt, 0, false, false⟩ ∧
    commit_changes ⟨some "0a1b", 1⟩ "ffff" = ⟨some "0a1b", 1⟩ :=
  C2_idempotent ctxW none fsBuilt ⟨some "0a1b", 1⟩ "0a1b" "ffff" (by decide)
    (by decide) (by decide) (by decide) (by decide) (by decide) (by decide)
    (by decide) (by decide) rfl (by decide)

/-- C9: `files=set()` is falsy in Python, so an empty restriction set
behaves exactly like `files=None` — the whole pipeline runs unrestricted
— while a nonempty set does skip entries not listed in it. -/
theorem C9_empty_subset (ctx : Ctx) (fs0 : List String) (l : List String) (f : String)
    (hl : l ≠ []) (hf : l.contains f = false) :
    initialize_template ctx (some []) fs0 = initialize_template ctx none fs0 ∧
    pipelineTrace ctx (some []) fs0 = pipelineTrace ctx none fs0 ∧
    skippedByFiles (some l) f = true := by
  have hfun : runEntryF (some ([] : List String)) = runEntryF none := by
    funext acc e
    cases acc with
    | none => rfl
    | some p => simp [runEntryF, skippedByFiles]
  refine ⟨?_, ?_, ?_⟩
  · unfold initialize_template
    rw [hfun]
  · unfold pipelineTrace
    rw [hfun]
  · cases l with
    | nil => exact absurd rfl hl
    | cons x xs =>
      simp only [skippedByFiles]
      rw [hf]
      simp

/-- C9 witness: the theorem applied at a concrete context, plus the
restriction biting for a nonempty set. -/
theorem C9_empty_subset_witness :
    initialize_template ctxW (some []) [] = initialize_template ctxW none [] ∧
    skippedByFiles (some ["vocab"]) ".git" = true :=
  ⟨(C9_empty_subset ctxW [] ["vocab"] ".git" (by decide) (by decide)).1,
   (C9_empty_subset ctxW [] ["vocab"] ".git" (by decide) (by decide)).2.2⟩

/-! ## Lemmas: Python list indexing -/

theorem pyIndex_neg_one {α : Type} (xs : List α) (h : xs ≠ []) :
    pyIndex xs (-1) = some (xs.getLast h) := by
  have hlen : 0 < xs.length := List.length_pos.mpr h
  have hnorm : pyIndexNorm xs.length (-1) = -1 + xs.length := by
    unfold pyIndexNorm
    rw [if_pos (by decide)]
  have hcond : 0 ≤ pyIndexNorm xs.length (-1) ∧
      (pyIndexNorm xs.length (-1)).toNat < xs.length := by
    rw [hnorm]
    omega
  have hidx : (pyIndexNorm xs.length (-1)).toNat = xs.length - 1 := by
    rw [hnorm]
    omega
  unfold pyIndex
  rw [dif_pos hcond]
  have hfin : (⟨(pyIndexNorm xs.length (-1)).toNat, hcond.2⟩ : Fin xs.length) =
      ⟨xs.length - 1, by omega⟩ := Fin.ext hidx
  rw [hfin, List.getLast_eq_getElem]
  simp [List.get_eq_getElem]

theorem pyIndex_too_large {α : Type} (xs : List α) (i : Int)
    (h : (xs.length : Int) ≤ i) : pyIndex xs i = none := by
  have hnorm : pyIndexNorm xs.length i = i := by
    unfold pyIndexNorm
    rw [if_neg (by omega)]
  unfold pyIndex
  rw [dif_neg]
  rw [hnorm]
  omega

/-- C10: the license choice is never range-checked: the digit `0` selects
`license_files[-1]`, the last listed license file, instead of being
rejected, and a digit beyond the number of listed files raises
`IndexError` (modelled `none`). -/
theorem C10_license_indexing (files : List String) (choice : List Char)
    (hne : files ≠ []) :
    license_choice ['0'] files = some (some (files.getLast hne)) ∧
    (strIsDigit choice = true → files.length < strToNat choice →
      license_choice choice files = none) := by
  constructor
  · unfold license_choice
    rw [if_pos (by decide : strIsDigit ['0'] = true)]
    have h0 : ((strToNat ['0'] : Int) - 1) = -1 := by decide
    rw [h0, pyIndex_neg_one files hne]
  · intro hd hlt
    unfold license_choice
    rw [if_pos hd]
    rw [pyIndex_too_large files _ (by omega)]

/-- C10 witness: with three listed licenses, choice `0` copies the third
and choice `7` raises. -/
theorem C10_license_indexing_witness :
    license_choice ['0'] ["Apache-2.0", "GPL-3.0", "MIT"] =
      some (some (["Apache-2.0", "GPL-3.0", "MIT"].getLast (by decide))) ∧
    license_choice ['7'] ["Apache-2.0", "GPL-3.0", "MIT"] = none := by
  constructor
  · exact (C10_license_indexing ["Apache-2.0", "GPL-3.0", "MIT"] ['7'] (by decide)).1
  · exact (C10_license_indexing ["Apache-2.0", "GPL-3.0", "MIT"] ['7'] (by decide)).2
      (by decide) (by decide)

/-- C6: a status-422 `GithubException` from `create_repo` is turned into
the distinct `GithubRepoExists` error chained from the original exception,
any other status propagates unchanged, and in `perform` the
`GithubRepoExists` error is caught and printed (the step succeeds) while
other errors still propagate. -/
theorem C6_github_repo_exists (repoName repoUrl : String) (s : Nat) (hs : s ≠ 422) :
    create_github_repo_attempt repoName (Except.error (PyExc.githubException 422)) =
      Except.error (PyExc.githubRepoExists repoName (PyExc.githubException 422)) ∧
    create_github_repo_attempt repoName (Except.error (PyExc.githubException s)) =
      Except.error (PyExc.githubException s) ∧
    create_github_repo_attempt repoName (Except.ok repoUrl) = Except.ok repoUrl ∧
    perform_create_step repoName (Except.error (PyExc.githubException 422)) =
      Except.ok () ∧
    perform_create_step repoName (Except.error (PyExc.githubException s)) =
      Except.error (PyExc.githubException s) := by
  refine ⟨by rfl, ?_, by rfl, by rfl, ?_⟩
  · simp [create_github_repo_attempt, hs]
  · simp [perform_create_step, create_github_repo_attempt, hs, print_error_block,
      is_github_repo_exists, Except.map]

/-- C6 witness: a status-500 failure propagates unchanged through both the
attempt and the `perform`-level handler. -/
theorem C6_github_repo_exists_witness :
    create_github_repo_attempt "pizza-orderer-skill"
      (Except.error (PyExc.githubException 500)) =
      Except.error (PyExc.githubException 500) ∧
    perform_create_step "pizza-orderer-skill"
      (Except.error (PyExc.githubException 500)) =
      Except.error (PyExc.githubException 500) :=
  ⟨(C6_github_repo_exists "pizza-orderer-skill" "url" 500 (by decide)).2.1,
   (C6_github_repo_exists "pizza-orderer-skill" "url" 500 (by decide)).2.2.2.2⟩

/-- C7: a status-128 `GitCommandError` from the pull becomes the distinct
`UnrelatedGithubHistory` error chained from the original, and any other
status propagates unchanged. -/
theorem C7_unrelated_history (repoName : String) (s : Int) (hs : s ≠ 128) :
    link_github_repo_pull repoName (Except.error (PyExc.gitCommandError 128)) =
      Except.error (PyExc.unrelatedGithubHistory repoName (PyExc.gitCommandError 128)) ∧
    link_github_repo_pull repoName (Except.error (PyExc.gitCommandError s)) =
      Except.error (PyExc.gitCommandError s) ∧
    link_github_repo_pull repoName (Except.ok ()) = Except.ok () := by
  refine ⟨by rfl, ?_, by rfl⟩
  simp [link_github_repo_pull, hs]

/-- C7 witness: a status-1 pull failure propagates unchanged. -/
theorem C7_unrelated_history_witness :
    link_github_repo_pull "pizza-orderer-skill"
      (Except.error (PyExc.gitCommandError 1)) =
      Except.error (PyExc.gitCommandError 1) :=
  (C7_unrelated_history "pizza-orderer-skill" 1 (by decide)).2.1

/-- C8 (counterexample to the claim as stated): with the example phrase
`set an alarm`, the produced vocabulary file body is `Set an alarm\n`
(the input is capitalized), not a file whose line is `set an alarm`. -/
theorem C8_counterexample :
    vocab_file_content (intent_lines ["set an alarm"]) ≠ "set an alarm" ++ "\n" := by
  decide

set_option maxRecDepth 4000 in
/-- C8 (amended): with the example phrase `set an alarm` and response
line `Your alarm is set`, the vocabulary file body is `Set an alarm\n`
(first letter capitalized per the input rule), the dialog file body is
`Your alarm is set\n`, and the README rendered with primary category
`Daily` has a category section reading `Daily`. -/
theorem C8_end_to_end :
    vocab_file_content (intent_lines ["set an alarm"]) = "Set an alarm" ++ "\n" ∧
    dialog_file_content (dialog_lines ["Your alarm is set"]) =
      "Your alarm is set" ++ "\n" ∧
    List.IsInfix ("## Category\n**Daily**\n").data
      (readme "siren-alarm" "Wakes you up with a loud siren"
        "Wakes you up with a loud siren" "Jane" "bell" "#ff0000" "Daily"
        (intent_lines ["set an alarm"]) [] []).data := by
  refine ⟨by decide, by decide, ?_⟩
  decide

end Msk
